import Mathlib

/-!
Shallow embedding of the menu subsystem of the ando-archive desktop shell
(src-tauri/src/menu.rs and src-tauri/src/lib.rs).

The menu builders of the GUI runtime are fallible; their outcomes are
modelled by an oracle over the individual build calls (`BuildEnv`).
Event emission is fallible as well; its outcome is modelled by an oracle
over event names (`EmitEnv`).  The Rust handler unwraps every emission
result, so a failed emission is modelled as a `panicked` outcome.
-/

namespace AndoArchive

/-! Data model of the menu tree. -/

structure MenuItem where
  id : String
  label : String
  accelerator : Option String
deriving DecidableEq

inductive MenuEntry
  | item (it : MenuItem)
  | separator
deriving DecidableEq

structure Submenu where
  label : String
  entries : List MenuEntry
deriving DecidableEq

structure Menu where
  submenus : List Submenu
deriving DecidableEq

/-! Fallible construction, mirroring the `?` operator on every builder call
in `create_app_menu`. -/

inductive BuildCall
  | menuItem (label id : String) (accelerator : Option String)
  | submenu (label : String)
  | root
deriving DecidableEq

inductive BuildError
  | failed (call : BuildCall)
deriving DecidableEq

/-- An oracle deciding which build calls of the underlying runtime succeed. -/
def BuildEnv : Type := BuildCall → Bool

/-- Model of `MenuItemBuilder::new(label).id(id).accelerator(a).build(app)?`. -/
def buildMenuItem (env : BuildEnv) (label id : String) (accelerator : Option String) :
    Except BuildError MenuItem :=
  if env (.menuItem label id accelerator) then
    .ok ⟨id, label, accelerator⟩
  else
    .error (.failed (.menuItem label id accelerator))

/-- Model of a `SubmenuBuilder` chain followed by `.build()?`. -/
def buildSubmenu (env : BuildEnv) (label : String) (entries : List MenuEntry) :
    Except BuildError Submenu :=
  if env (.submenu label) then .ok ⟨label, entries⟩
  else .error (.failed (.submenu label))

/-- Model of the root `MenuBuilder` chain followed by `.build()?`. -/
def buildRootMenu (env : BuildEnv) (submenus : List Submenu) : Except BuildError Menu :=
  if env .root then .ok ⟨submenus⟩ else .error (.failed .root)

/-- Embedding of `create_app_menu` (src-tauri/src/menu.rs), with every
builder call and every `?` in source order. -/
def create_app_menu (env : BuildEnv) : Except BuildError Menu := do
  let newDocument ← buildMenuItem env "New Document" "new_document" (some "CmdOrCtrl+N")
  let search ← buildMenuItem env "Search Documents" "search" (some "CmdOrCtrl+F")
  let documents_menu ← buildSubmenu env "Documents"
    [.item newDocument, .separator, .item search]
  let newCategory ← buildMenuItem env "New Category" "new_category" (some "CmdOrCtrl+Shift+N")
  let manageCategories ←
    buildMenuItem env "Manage Categories" "manage_categories" (some "CmdOrCtrl+Shift+M")
  let categories_menu ← buildSubmenu env "Categories"
    [.item newCategory, .item manageCategories]
  let exportArchive ← buildMenuItem env "Export Archive" "export_archive" (some "CmdOrCtrl+E")
  let importArchive ← buildMenuItem env "Import Archive" "import_archive" (some "CmdOrCtrl+I")
  let settings ← buildMenuItem env "Settings" "settings" none
  let quit ← buildMenuItem env "Quit" "quit" none
  let file_menu ← buildSubmenu env "File"
    [.item exportArchive, .item importArchive, .separator, .item settings, .separator, .item quit]
  let undo ← buildMenuItem env "Undo" "undo" (some "CmdOrCtrl+Z")
  let redo ← buildMenuItem env "Redo" "redo" (some "CmdOrCtrl+Shift+Z")
  let cut ← buildMenuItem env "Cut" "cut" (some "CmdOrCtrl+X")
  let copy ← buildMenuItem env "Copy" "copy" (some "CmdOrCtrl+C")
  let paste ← buildMenuItem env "Paste" "paste" (some "CmdOrCtrl+V")
  let edit_menu ← buildSubmenu env "Edit"
    [.item undo, .item redo, .separator, .item cut, .item copy, .item paste]
  let toggleSidebar ← buildMenuItem env "Toggle Sidebar" "toggle_sidebar" (some "CmdOrCtrl+B")
  let reload ← buildMenuItem env "Reload" "reload" (some "CmdOrCtrl+R")
  let view_menu ← buildSubmenu env "View"
    [.item toggleSidebar, .separator, .item reload]
  let about ← buildMenuItem env "About Ando Archive" "about" none
  let help_menu ← buildSubmenu env "Help" [.item about]
  buildRootMenu env
    [documents_menu, categories_menu, file_menu, edit_menu, view_menu, help_menu]

/-- Model of `app.set_menu(menu)?` in lib.rs: the constructed menu replaces
whatever menu the window previously had. -/
def set_menu (_previous : Option Menu) (m : Menu) : Option Menu := some m

/-- Embedding of the menu part of the `setup` closure in lib.rs:
`let menu = menu::create_app_menu(app.handle())?; app.set_menu(menu)?;`.
The result is the window menu state after setup, or the propagated error. -/
def setup_menu (env : BuildEnv) (window : Option Menu) : Except BuildError (Option Menu) := do
  let menu ← create_app_menu env
  pure (set_menu window menu)

/-! Event dispatch. -/

/-- The payload of every `app.emit` call in the source is the unit value. -/
inductive Payload
  | unit
deriving DecidableEq

/-- One call to `app.emit(event, ())`. -/
structure EmitCall where
  event : String
  payload : Payload
deriving DecidableEq

/-- An oracle deciding which emission calls succeed (Tauri `emit` returns a
`Result`; with no subscribers it still returns success). -/
def EmitEnv : Type := String → Bool

/-- Outcome of one `handle_menu_event` call: normal completion with the list
of successful emissions, a panic from `.unwrap()` on a failed emission, or a
process-exit request. -/
inductive MenuEventOutcome
  | completed (emitted : List EmitCall)
  | panicked (call : EmitCall)
  | exited (code : Nat)
deriving DecidableEq

/-- Model of `app.emit(name, ()).unwrap()`. -/
def emitUnwrap (emitOk : EmitEnv) (name : String) : MenuEventOutcome :=
  if emitOk name then .completed [⟨name, .unit⟩] else .panicked ⟨name, .unit⟩

/-- Embedding of `handle_menu_event` (src-tauri/src/menu.rs): a match on the
identifier string with the same arms, including the final no-op arm. -/
def handle_menu_event (emitOk : EmitEnv) (event : String) : MenuEventOutcome :=
  match event with
  | "new_document" => emitUnwrap emitOk "menu_new_document"
  | "search" => emitUnwrap emitOk "menu_search"
  | "new_category" => emitUnwrap emitOk "menu_new_category"
  | "manage_categories" => emitUnwrap emitOk "menu_manage_categories"
  | "export_archive" => emitUnwrap emitOk "menu_export_archive"
  | "import_archive" => emitUnwrap emitOk "menu_import_archive"
  | "settings" => emitUnwrap emitOk "menu_settings"
  | "quit" => .exited 0
  | "toggle_sidebar" => emitUnwrap emitOk "menu_toggle_sidebar"
  | "reload" => emitUnwrap emitOk "menu_reload"
  | "about" => emitUnwrap emitOk "menu_about"
  | _ => .completed []

/-! Observation helpers. -/

def emitsOf : MenuEventOutcome → List EmitCall
  | .completed es => es
  | .panicked _ => []
  | .exited _ => []

def isPanic : MenuEventOutcome → Bool
  | .panicked _ => true
  | _ => false

def isExit : MenuEventOutcome → Bool
  | .exited _ => true
  | _ => false

/-- Successful emissions of a sequence of menu selections, processed one at a
time; a panic or a process exit ends the sequence. -/
def dispatchSeq (emitOk : EmitEnv) : List String → List EmitCall
  | [] => []
  | e :: rest =>
    match handle_menu_event emitOk e with
    | .completed es => es ++ dispatchSeq emitOk rest
    | .panicked _ => []
    | .exited _ => []

def entryItems : MenuEntry → List MenuItem
  | .item it => [it]
  | .separator => []

def entryId : MenuEntry → Option String
  | .item it => some it.id
  | .separator => none

def isSeparator : MenuEntry → Bool
  | .separator => true
  | _ => false

/-- All actionable items of a menu, in display order. -/
def allItems (m : Menu) : List MenuItem :=
  m.submenus.foldr (fun s acc => s.entries.foldr (fun e acc2 => entryItems e ++ acc2) acc) []

/-- Identifiers of all actionable items of a menu, in display order. -/
def actionableIds (m : Menu) : List String :=
  (allItems m).map MenuItem.id

/-- The identifiers having a dedicated arm in the match of handle_menu_event,
in source order. -/
def handledIds : List String :=
  ["new_document", "search", "new_category", "manage_categories", "export_archive",
   "import_archive", "settings", "quit", "toggle_sidebar", "reload", "about"]

/-- The environment in which every build call succeeds. -/
def envOk : BuildEnv := fun _ => true

/-- The environment in which every emission call succeeds. -/
def emitAllOk : EmitEnv := fun _ => true

/-- The menu tree that `create_app_menu` builds when every build call
succeeds. -/
def builtMenu : Menu := ((create_app_menu envOk).toOption).getD ⟨[]⟩

/-- A build environment failing exactly the root menu build. -/
def envNoRoot : BuildEnv := fun c => if c = BuildCall.root then false else true


/-! Helper lemmas about a single unwrapped emission. -/

/-- An unwrapped emission never yields the empty no-op completion: it either
completes with exactly its one emission, or panics. -/
theorem emitUnwrap_ne_noop (emitOk : EmitEnv) (name : String) :
    emitUnwrap emitOk name ≠ .completed [] := by
  unfold emitUnwrap; split <;> simp

/-- When an unwrapped emission completes, it emitted exactly its one event. -/
theorem emitUnwrap_completed (emitOk : EmitEnv) (name : String) (calls : List EmitCall) :
    emitUnwrap emitOk name = .completed calls → calls = [⟨name, Payload.unit⟩] := by
  unfold emitUnwrap
  split <;> intro h
  · cases h; rfl
  · exact absurd h (by simp)

/-- An unwrapped emission panics only when the emission call failed. -/
theorem emitUnwrap_panicked (emitOk : EmitEnv) (name : String) (c : EmitCall) :
    emitUnwrap emitOk name = .panicked c → emitOk c.event = false := by
  unfold emitUnwrap
  split <;> intro h
  · exact absurd h (by simp)
  · cases h; simp_all

/-- A successful emission call does not panic. -/
theorem isPanic_emitUnwrap (emitOk : EmitEnv) (name : String) (h : emitOk name = true) :
    isPanic (emitUnwrap emitOk name) = false := by
  simp [emitUnwrap, h, isPanic]

/-- An unwrapped emission never requests process exit. -/
theorem isExit_emitUnwrap (emitOk : EmitEnv) (name : String) :
    isExit (emitUnwrap emitOk name) = false := by
  unfold emitUnwrap; split <;> rfl

/-! Claim theorems. -/

/-- Claim C1, counterexample: the identifier "undo" is an actionable
identifier of the built MenuTree, yet handle_menu_event sends it to the
unknown-identifier no-op branch (same result as a string that is no
identifier at all), emitting nothing. -/
theorem C1_undo_falls_through :
    "undo" ∈ actionableIds builtMenu ∧
    handle_menu_event emitAllOk "undo" = .completed [] ∧
    handle_menu_event emitAllOk "undo" = handle_menu_event emitAllOk "not_a_real_id" := by
  decide

/-- Claim C1, amended: every actionable identifier of the built MenuTree is
mapped by handle_menu_event to a defined action (an emission attempt or
exit), except the five Edit-menu identifiers undo, redo, cut, copy and
paste, which fall through to the unknown-identifier no-op branch. -/
theorem C1_dispatch_covers_all_but_edit_ids :
    ∀ (emitOk : EmitEnv), ∀ id ∈ actionableIds builtMenu,
      (id ∉ (["undo", "redo", "cut", "copy", "paste"] : List String) →
        handle_menu_event emitOk id ≠ .completed []) ∧
      (id ∈ (["undo", "redo", "cut", "copy", "paste"] : List String) →
        handle_menu_event emitOk id = .completed []) := by
  intro emitOk id hid
  have h16 : actionableIds builtMenu =
      ["new_document", "search", "new_category", "manage_categories", "export_archive",
       "import_archive", "settings", "quit", "undo", "redo", "cut", "copy", "paste",
       "toggle_sidebar", "reload", "about"] := by decide
  rw [h16] at hid
  fin_cases hid
  all_goals first
    | exact ⟨fun _ => emitUnwrap_ne_noop emitOk _, fun h2 => absurd h2 (by decide)⟩
    | exact ⟨fun _ => by simp [handle_menu_event], fun h2 => absurd h2 (by decide)⟩
    | exact ⟨fun h1 => absurd (by decide) h1, fun _ => rfl⟩

/-- Claim C1, witness: the amended theorem at the actionable identifier
"new_document". -/
theorem C1_dispatch_covers_all_but_edit_ids_witness :
    handle_menu_event emitAllOk "new_document" ≠ .completed [] :=
  (C1_dispatch_covers_all_but_edit_ids emitAllOk "new_document" (by decide)).1 (by decide)

/-- Claim C2, counterexample: when the emission call for "new_document"
fails, handle_menu_event does not complete normally; the unwrap panics. -/
theorem C2_unwrap_panics :
    handle_menu_event (fun _ => false) "new_document" =
      .panicked ⟨"menu_new_document", Payload.unit⟩ ∧
    isPanic (handle_menu_event (fun _ => false) "new_document") = true := by
  decide

/-- Claim C2, amended: handle_menu_event unwraps every emission result, so
it completes without panic whenever every emission call succeeds (as in the
no-subscriber case, which Tauri reports as success), and any panic it takes
comes from an emission call that returned an error. -/
theorem C2_emission_result_unwrapped :
    ∀ (emitOk : EmitEnv) (event : String),
      ((∀ e, emitOk e = true) → isPanic (handle_menu_event emitOk event) = false) ∧
      (∀ c, handle_menu_event emitOk event = .panicked c → emitOk c.event = false) := by
  intro emitOk event
  constructor
  · intro hall
    unfold handle_menu_event
    split
    all_goals first
      | exact isPanic_emitUnwrap emitOk _ (hall _)
      | rfl
  · intro c hc
    unfold handle_menu_event at hc
    split at hc
    all_goals first
      | exact emitUnwrap_panicked emitOk _ c hc
      | exact absurd hc (by simp)

/-- Claim C2, witness: the amended theorem at "new_document", once for an
all-success emission environment and once for an all-failure one. -/
theorem C2_emission_result_unwrapped_witness :
    isPanic (handle_menu_event emitAllOk "new_document") = false ∧
    (fun _ => false : EmitEnv) "menu_new_document" = false :=
  ⟨(C2_emission_result_unwrapped emitAllOk "new_document").1 (fun _ => rfl),
   (C2_emission_result_unwrapped (fun _ => false) "new_document").2
     ⟨"menu_new_document", Payload.unit⟩ (by decide)⟩

/-- Claim C3: any input string outside the identifiers handled by the match
makes handle_menu_event complete without emitting, without exiting and
without panicking, for every emission environment. -/
theorem C3_unknown_identifier_noop :
    ∀ (emitOk : EmitEnv) (event : String), event ∉ handledIds →
      handle_menu_event emitOk event = .completed [] := by
  intro emitOk event h
  unfold handle_menu_event
  split
  all_goals first
    | rfl
    | exact absurd (by decide) h

/-- Claim C3, witness: the theorem at the input "not_a_real_id". -/
theorem C3_unknown_identifier_noop_witness :
    handle_menu_event emitAllOk "not_a_real_id" = .completed [] :=
  C3_unknown_identifier_noop emitAllOk "not_a_real_id" (by decide)

/-- Claim C4: dispatching "quit" requests process exit with status code 0
and emits no event in that call, for every emission environment. -/
theorem C4_quit_exits_zero :
    ∀ emitOk : EmitEnv, handle_menu_event emitOk "quit" = .exited 0 ∧
      emitsOf (handle_menu_event emitOk "quit") = [] :=
  fun _ => ⟨rfl, rfl⟩

/-- Claim C5: in the built MenuTree no two actionable items share an
identifier, every actionable item has a non-empty identifier, and an entry
carries no identifier exactly when it is a separator. -/
theorem C5_identifier_invariants :
    (actionableIds builtMenu).Nodup ∧
    (actionableIds builtMenu).all (fun i => !(i == "")) = true ∧
    builtMenu.submenus.all
      (fun s => s.entries.all (fun e => isSeparator e == (entryId e == none))) = true := by
  decide

/-- Claim C6: dispatching "new_document" twice in sequence emits the event
menu_new_document exactly twice with the identical event name both times,
and equals two independent single dispatches, the mapping being stateless. -/
theorem C6_double_dispatch_idempotent :
    dispatchSeq emitAllOk ["new_document", "new_document"] =
      [⟨"menu_new_document", Payload.unit⟩, ⟨"menu_new_document", Payload.unit⟩] ∧
    (dispatchSeq emitAllOk ["new_document", "new_document"]).count
      ⟨"menu_new_document", Payload.unit⟩ = 2 ∧
    dispatchSeq emitAllOk ["new_document", "new_document"] =
      dispatchSeq emitAllOk ["new_document"] ++ dispatchSeq emitAllOk ["new_document"] := by
  decide

/-- Claim C7: the built MenuTree holds an item labeled "Search Documents"
in the submenu labeled "Documents", with identifier "search" and
accelerator CmdOrCtrl+F, and dispatching "search" emits menu_search exactly
once with the empty (unit) payload. -/
theorem C7_search_end_to_end :
    (⟨"search", "Search Documents", some "CmdOrCtrl+F"⟩ : MenuItem) ∈ allItems builtMenu ∧
    (∃ s ∈ builtMenu.submenus, s.label = "Documents" ∧
      MenuEntry.item ⟨"search", "Search Documents", some "CmdOrCtrl+F"⟩ ∈ s.entries) ∧
    dispatchSeq emitAllOk ["search"] = [⟨"menu_search", Payload.unit⟩] := by
  decide

/-- Claim C8: menu construction is all-or-nothing: whenever any build call
fails, create_app_menu propagates the error and setup_menu returns the same
error without installing any menu; set_menu is reached only on successful
construction, and then the installed menu is the fully built one. -/
theorem C8_all_or_nothing :
    (∀ (env : BuildEnv) (window : Option Menu) (e : BuildError),
        create_app_menu env = .error e → setup_menu env window = .error e) ∧
    (∀ (env : BuildEnv) (window : Option Menu) (r : Option Menu),
        setup_menu env window = .ok r →
        ∃ m, create_app_menu env = .ok m ∧ r = set_menu window m) := by
  constructor
  · intro env window e h
    simp only [setup_menu, bind, Except.bind, h]
  · intro env window r h
    cases hc : create_app_menu env with
    | error e =>
      rw [setup_menu] at h
      simp only [bind, Except.bind, hc] at h
      exact Except.noConfusion h
    | ok m =>
      rw [setup_menu] at h
      simp only [bind, Except.bind, hc, pure, Except.pure, Except.ok.injEq] at h
      exact ⟨m, rfl, h.symm⟩

/-- Claim C8, witness: the theorem in the environment failing exactly the
root menu build. -/
theorem C8_all_or_nothing_witness :
    setup_menu envNoRoot none = .error (.failed .root) :=
  C8_all_or_nothing.1 envNoRoot none (.failed .root) rfl

/-- Claim C9: only the identifier "quit" can request process termination;
every other input never yields an exit outcome. -/
theorem C9_exit_only_from_quit :
    ∀ (emitOk : EmitEnv) (event : String), event ≠ "quit" →
      isExit (handle_menu_event emitOk event) = false := by
  intro emitOk event h
  unfold handle_menu_event
  split
  all_goals first
    | exact isExit_emitUnwrap emitOk _
    | exact absurd rfl h
    | rfl

/-- Claim C9, witness: the theorem at the input "search". -/
theorem C9_exit_only_from_quit_witness :
    isExit (handle_menu_event emitAllOk "search") = false :=
  C9_exit_only_from_quit emitAllOk "search" (by decide)

/-- Claim C10: whenever handle_menu_event completes, it emitted at most one
event, and any emitted event is named by prepending the string menu_ to the
dispatched identifier. -/
theorem C10_event_name_from_identifier :
    ∀ (emitOk : EmitEnv) (event : String) (calls : List EmitCall),
      handle_menu_event emitOk event = .completed calls →
      calls = [] ∨ calls = [⟨"menu_" ++ event, Payload.unit⟩] := by
  intro emitOk event calls h
  unfold handle_menu_event at h
  split at h
  all_goals first
    | exact Or.inr ((emitUnwrap_completed _ _ _ h).trans (by decide))
    | (cases h; exact Or.inl rfl)
    | cases h

/-- Claim C10, witness: the theorem at the input "search". -/
theorem C10_event_name_from_identifier_witness :
    ([⟨"menu_search", Payload.unit⟩] : List EmitCall) = [] ∨
    ([⟨"menu_search", Payload.unit⟩] : List EmitCall) =
      [⟨"menu_" ++ "search", Payload.unit⟩] :=
  C10_event_name_from_identifier emitAllOk "search" [⟨"menu_search", Payload.unit⟩] (by decide)

end AndoArchive
